import Mathlib

/-!
Verification of the salary-dashboard data pipeline of the
ECS163 Team 12 repository.

The development embeds, as executable Lean definitions, the data model,
normalization, aggregation, and filter-coordination logic of
stateMap.js, dashboard.js, sankey.js, and treemap.js, and proves the
specified properties about them.  Salaries are modelled as rationals,
strings as Lean strings over their character lists, and the small
amount of stateful coordination code as explicit state passing.
-/

set_option maxRecDepth 8000

namespace SalaryDash

/-- Model of the JavaScript includes test on strings: the needle occurs
as a contiguous sublist of the haystack. -/
def containsSub (needle : List Char) : List Char → Bool
  | [] => needle.isEmpty
  | c :: rest => needle.isPrefixOf (c :: rest) || containsSub needle rest

/-- Convenience wrapper of containsSub at the String level, argument
order matching hay.includes(needle) in the source. -/
def jsIncludes (hay needle : String) : Bool :=
  containsSub needle.data hay.data

/-- Model of the JavaScript toLowerCase call on the ASCII titles of the
dataset: each character is ASCII-lower-cased. -/
def toLowerJs (s : String) : String :=
  String.mk (s.data.map Char.toLower)

/-- Canonical job record as produced by the normalization step of the
pipeline (stateMap.js csv transform / dashboard.js extractDataFromMap).
Only the fields the verified logic reads are kept; salaries are
rationals, the five skill flags are the 0/1 numbers of the dataset. -/
structure Rec where
  state : String
  title : String
  avg : ℚ
  python_yn : ℕ
  R_yn : ℕ
  spark : ℕ
  aws : ℕ
  excel : ℕ
  size : String
deriving DecidableEq

namespace Dashboard

/-- Embeds Dashboard.categorizeJob of dashboard.js: a falsy (empty)
title is Other, otherwise the title is lower-cased and matched against
an ordered list of substring predicates, first match wins. -/
def categorizeJob (jobTitle : String) : String :=
  if jobTitle = "" then "Other"
  else
    let title := toLowerJs jobTitle
    if jsIncludes title "data scientist" then "Data Scientist"
    else if jsIncludes title "data engineer" then "Data Engineer"
    else if jsIncludes title "data analyst" || jsIncludes title "analyst" then "Data Analyst"
    else if jsIncludes title "machine learning" || jsIncludes title "ml engineer" then "ML Engineer"
    else "Other"

end Dashboard

namespace SankeyViz

/-- Embeds SankeyViz.categorizeJob of sankey.js (no empty-title guard:
the JavaScript calls toLowerCase directly on the argument). -/
def categorizeJob (jobTitle : String) : String :=
  let title := toLowerJs jobTitle
  if jsIncludes title "data scientist" then "Data Scientist"
  else if jsIncludes title "data engineer" then "Data Engineer"
  else if jsIncludes title "data analyst" || jsIncludes title "analyst" then "Data Analyst"
  else if jsIncludes title "machine learning" || jsIncludes title "ml engineer" then "ML Engineer"
  else "Other"

end SankeyViz

namespace TreemapViz

/-- Embeds TreemapViz.categorizeJob of treemap.js, textually the same
predicate chain as the SankeyViz copy. -/
def categorizeJob (jobTitle : String) : String :=
  let title := toLowerJs jobTitle
  if jsIncludes title "data scientist" then "Data Scientist"
  else if jsIncludes title "data engineer" then "Data Engineer"
  else if jsIncludes title "data analyst" || jsIncludes title "analyst" then "Data Analyst"
  else if jsIncludes title "machine learning" || jsIncludes title "ml engineer" then "ML Engineer"
  else "Other"

end TreemapViz

namespace RadarChart

/-- Embeds RadarChart.categorizeJob of sankey.js (both RadarChart
declarations in that file carry the same body). -/
def categorizeJob (jobTitle : String) : String :=
  let title := toLowerJs jobTitle
  if jsIncludes title "data scientist" then "Data Scientist"
  else if jsIncludes title "data engineer" then "Data Engineer"
  else if jsIncludes title "data analyst" || jsIncludes title "analyst" then "Data Analyst"
  else if jsIncludes title "machine learning" || jsIncludes title "ml engineer" then "ML Engineer"
  else "Other"

end RadarChart


/-- Drop leading whitespace characters, modelling a greedy whitespace
run of the location regex. -/
def dropSpaces (l : List Char) : List Char :=
  l.dropWhile (fun c => c.isWhitespace)

/-- Scan the reversed location for the tail pattern of the regex of
stateMap.js, comma then spaces then exactly two capital letters then
spaces then end of string: on the reversed list this is spaces, the two
capitals (second first), spaces, and a comma.  Returns the two capture
characters in original order. -/
def extractStateRev (l : List Char) : Option (Char × Char) :=
  match dropSpaces l with
  | c2 :: c1 :: rest =>
    if c1.isUpper && c2.isUpper then
      match dropSpaces rest with
      | c :: _ => if c = ',' then some (c1, c2) else none
      | [] => none
    else none
  | _ => none

/-- Embeds the state-abbreviation extraction of the stateMap.js csv
transform: match the location against the us-state-suffix regex and
keep the two-letter capture, or the empty string when there is no
match. -/
def parseLocationState (location : String) : String :=
  match extractStateRev location.data.reverse with
  | some (c1, c2) => String.mk [c1, c2]
  | none => ""

/-- Embeds the range adjustment of the stateMap.js csv transform: a
positive salary below 1000 is interpreted as thousands and scaled. -/
def normalizeAvg (avgSalary : ℚ) : ℚ :=
  if 0 < avgSalary ∧ avgSalary < 1000 then avgSalary * 1000 else avgSalary

/-- Raw csv row as seen by the transform of stateMap.js; the numeric
salary value stands for the result of the numeric parsing of the raw
salary text, which is outside the verified core. -/
structure RawRow where
  location : String
  avgSalary : ℚ
  title : String
  size : String
  python_yn : ℕ
  R_yn : ℕ
  spark : ℕ
  aws : ℕ
  excel : ℕ
deriving DecidableEq

/-- Embeds the row transform of stateMap.js: extract the state code
from the location and normalize the salary, carrying the remaining
fields through. -/
def transformRow (d : RawRow) : Rec :=
  { state := parseLocationState d.location
    title := d.title
    avg := normalizeAvg d.avgSalary
    python_yn := d.python_yn
    R_yn := d.R_yn
    spark := d.spark
    aws := d.aws
    excel := d.excel
    size := d.size }

/-- Embeds the validity filter of stateMap.js: keep rows with a
positive salary and a non-empty (truthy) state string. -/
def validRows (rows : List Rec) : List Rec :=
  rows.filter (fun d => decide (0 < d.avg) && decide (d.state ≠ ""))

/-- The 50 state abbreviations of the fipsToAbbr table of
stateMap.js. -/
def knownStateCodes : List String :=
  ["AL", "AK", "AZ", "AR", "CA", "CO", "CT", "DE", "FL", "GA",
   "HI", "ID", "IL", "IN", "IA", "KS", "KY", "LA", "ME", "MD",
   "MA", "MI", "MN", "MS", "MO", "MT", "NE", "NV", "NH", "NJ",
   "NM", "NY", "NC", "ND", "OH", "OK", "OR", "PA", "RI", "SC",
   "SD", "TN", "TX", "UT", "VT", "VA", "WA", "WV", "WI", "WY"]


/-- Distinct state keys of a row list in first-encounter order, as the
iteration order of the d3.group map of stateMap.js. -/
def groupKeys (rows : List Rec) : List String :=
  rows.foldl (fun ks r => if r.state ∈ ks then ks else ks ++ [r.state]) []

/-- Embeds the d3.group call of stateMap.js: rows bucketed by state,
keys in first-encounter order, rows of a group in dataset order. -/
def byState (rows : List Rec) : List (String × List Rec) :=
  (groupKeys rows).map (fun k => (k, rows.filter (fun r => decide (r.state = k))))

/-- Embeds d3.mean on a list of defined numeric values: the arithmetic
mean, undefined on the empty list. -/
def d3Mean (l : List ℚ) : Option ℚ :=
  match l with
  | [] => none
  | _ => some (l.sum / l.length)

/-- Insert a rational into a sorted list, keeping it sorted. -/
def insortQ (x : ℚ) : List ℚ → List ℚ
  | [] => [x]
  | y :: ys => if x ≤ y then x :: y :: ys else y :: insortQ x ys

/-- Ascending sort of a rational list, modelling the numeric sort
comparator (a, b) => a - b used on the salary list in sankey.js. -/
def sortQ (l : List ℚ) : List ℚ :=
  l.foldr insortQ []

/-- Embeds d3.quantile on an ascending-sorted value list (the source
sorts its salary list before querying quantiles, and d3.median is
quantile at one half): R-7 linear interpolation between the two order
statistics around the fractional index. -/
def quantileSorted (v : List ℚ) (p : ℚ) : Option ℚ :=
  match v with
  | [] => none
  | x :: xs =>
    if p ≤ 0 ∨ (x :: xs).length < 2 then some x
    else if 1 ≤ p then some (xs.getLastD x)
    else
      let n : ℚ := (x :: xs).length
      let i : ℚ := (n - 1) * p
      let i0 : ℕ := i.num.toNat / i.den
      let v0 := (x :: xs).getD i0 0
      let v1 := (x :: xs).getD (i0 + 1) 0
      some (v0 + (v1 - v0) * (i - (i0 : ℚ)))

/-- Embeds d3.median: the one-half quantile of the sorted values. -/
def d3Median (l : List ℚ) : Option ℚ :=
  quantileSorted (sortQ l) (1 / 2)

/-- Per-state aggregate of stateMap.js: state code, sample count, and
mean salary of the group. -/
structure StateStat where
  state : String
  n : ℕ
  avg : ℚ
deriving DecidableEq

/-- Embeds the stateStats computation of stateMap.js: one entry per
state group with trimmed key, group size, and group mean salary, then
groups with non-positive mean dropped. -/
def stateStats (rows : List Rec) : List StateStat :=
  ((byState rows).map (fun g =>
    { state := g.1.trim
      n := g.2.length
      avg := (d3Mean (g.2.map Rec.avg)).getD 0 : StateStat }))
  |>.filter (fun s => decide (0 < s.avg))

/-- Embeds the nationalMedian computation of stateMap.js: the d3.median
of the per-state mean salaries of stateStats. -/
def nationalMedian (rows : List Rec) : Option ℚ :=
  d3Median ((stateStats rows).map StateStat.avg)


/-- Node of the three-layer flow graph of sankey.js. -/
structure SNode where
  name : String
  type : String
  layer : ℕ
deriving DecidableEq

/-- Link of the flow graph of sankey.js; the jobs field is present on
skill-to-track links, the avgSalary field on track-to-quartile
links. -/
structure SLink where
  source : ℕ
  target : ℕ
  value : ℕ
  jobs : Option ℕ
  avgSalary : Option ℚ
deriving DecidableEq

/-- Flow graph: node list plus link list. -/
structure SankeyData where
  nodes : List SNode
  links : List SLink
deriving DecidableEq

/-- Position of the first occurrence of an element, as the JavaScript
indexOf on the fixed label arrays of sankey.js. -/
def jsIndexOf : List String → String → ℕ
  | [], _ => 0
  | y :: ys, x => if y = x then 0 else jsIndexOf ys x + 1

/-- Comparison salary less-or-equal quantile with the JavaScript
semantics that any comparison against an undefined quantile is
false. -/
def leOpt (s : ℚ) (q : Option ℚ) : Bool :=
  match q with
  | some x => decide (s ≤ x)
  | none => false

/-- Comparison salary strictly-greater-than quantile, false against an
undefined quantile. -/
def gtOpt (s : ℚ) (q : Option ℚ) : Bool :=
  match q with
  | some x => decide (x < s)
  | none => false

namespace SankeyViz

/-- The five skill labels of the first layer. -/
def skills : List String := ["Python", "R", "Spark", "AWS/Cloud", "Excel"]

/-- The four track labels of the middle layer. -/
def tracks : List String := ["Data Scientist", "Data Engineer", "Data Analyst", "ML Engineer"]

/-- The four salary-quartile labels of the last layer. -/
def salaryQuartiles : List String := ["Q1 (Low)", "Q2 (Med-Low)", "Q3 (Med-High)", "Q4 (High)"]

/-- Embeds SankeyViz.getSkillField combined with the record field read:
the 0/1 flag of the record under the given skill label, 0 for an
unknown label (an undefined field read compares as false). -/
def getSkillVal (skill : String) (d : Rec) : ℕ :=
  if skill = "Python" then d.python_yn
  else if skill = "R" then d.R_yn
  else if skill = "Spark" then d.spark
  else if skill = "AWS/Cloud" then d.aws
  else if skill = "Excel" then d.excel
  else 0

/-- Embeds the quartile classification of buildSankeyData: bucket 0 is
salary at most q1, buckets 1 and 2 the half-open middle ranges, and
bucket 3 everything above q3 (any other index falls in the final else
of the chain). -/
def inQuartileIdx (q1 q2 q3 : Option ℚ) (qIndex : ℕ) (salary : ℚ) : Bool :=
  if qIndex = 0 then leOpt salary q1
  else if qIndex = 1 then gtOpt salary q1 && leOpt salary q2
  else if qIndex = 2 then gtOpt salary q2 && leOpt salary q3
  else gtOpt salary q3

/-- Embeds SankeyViz.buildSankeyData of sankey.js: quartile thresholds
from the sorted positive salaries, a fixed node list of the three
layers, skill-to-track links counting records with the skill flag in
the track, track-to-quartile links counting track records per salary
bucket, and a final filter keeping links of weight at least one. -/
def buildSankeyData (data : List Rec) : SankeyData :=
  let salaries := sortQ ((data.map Rec.avg).filter (fun s => decide (0 < s)))
  let q1 := quantileSorted salaries (1 / 4)
  let q2 := quantileSorted salaries (1 / 2)
  let q3 := quantileSorted salaries (3 / 4)
  let nodes :=
    skills.map (fun s => { name := s, type := "skill", layer := 0 : SNode })
    ++ tracks.map (fun t => { name := t, type := "track", layer := 1 : SNode })
    ++ salaryQuartiles.map (fun q => { name := q, type := "salary", layer := 2 : SNode })
  let skillTrackLinks :=
    skills.flatMap (fun skill =>
      tracks.flatMap (fun track =>
        let relevantJobs := data.filter (fun d =>
          decide (getSkillVal skill d = 1) && decide (categorizeJob d.title = track))
        if 0 < relevantJobs.length then
          [{ source := jsIndexOf skills skill
             target := skills.length + jsIndexOf tracks track
             value := relevantJobs.length
             jobs := some relevantJobs.length
             avgSalary := none : SLink }]
        else []))
  let trackQuartileLinks :=
    tracks.flatMap (fun track =>
      let trackJobs := data.filter (fun d => decide (categorizeJob d.title = track))
      (List.range salaryQuartiles.length).flatMap (fun qIndex =>
        let quartileJobs := trackJobs.filter (fun d => inQuartileIdx q1 q2 q3 qIndex d.avg)
        if 0 < quartileJobs.length then
          [{ source := skills.length + jsIndexOf tracks track
             target := skills.length + tracks.length + qIndex
             value := quartileJobs.length
             jobs := none
             avgSalary := d3Mean (quartileJobs.map Rec.avg) : SLink }]
        else []))
  let links := skillTrackLinks ++ trackQuartileLinks
  { nodes := nodes, links := links.filter (fun l => decide (1 ≤ l.value)) }

/-- Embeds the data path of SankeyViz.update: optionally filter to the
selected state, then build the flow graph from the filtered subset
(the remainder of the method is rendering). -/
def update (data : List Rec) (selectedState : Option String) : SankeyData :=
  let filteredData : List Rec :=
    match selectedState with
    | some st => data.filter (fun d => decide (d.state = st))
    | none => data
  buildSankeyData filteredData

end SankeyViz

namespace TreemapViz

/-- Embeds the data path of TreemapViz.update: optionally filter to
the selected track with the local categorizeJob copy; the result is
the record subset the size-bucket view is computed from (grouping and
rendering of the size buckets consume it unchanged). -/
def update (data : List Rec) (selectedTrack : Option String) : List Rec :=
  match selectedTrack with
  | some track => data.filter (fun d => decide (categorizeJob d.title = track))
  | none => data

end TreemapViz

namespace RadarChart

/-- The five skill-flag readers, in the order of the skillFields array
of sankey.js. -/
def skillFields : List (Rec → ℕ) :=
  [Rec.python_yn, Rec.R_yn, Rec.spark, Rec.aws, Rec.excel]

/-- Embeds RadarChart.updateIndustryAverage of sankey.js as a state
transformer on the stored industryAvg vector: filter to the selected
track when one is given, keep the previous vector unchanged when the
filtered subset is empty, and otherwise publish for each skill the
fraction of subset records with that flag set. -/
def updateIndustryAverage (industryAvg : List ℚ) (data : List Rec)
    (selectedTrack : Option String) : List ℚ :=
  let filteredData : List Rec :=
    match selectedTrack with
    | some track => data.filter (fun d => decide (categorizeJob d.title = track))
    | none => data
  if filteredData.length = 0 then industryAvg
  else skillFields.map (fun field =>
    ((filteredData.filter (fun d => decide (field d = 1))).length : ℚ) / (filteredData.length : ℚ))

end RadarChart

/-- Coordinator state of dashboard.js: the extracted dataset, the three
selection fields, and the data each dependent view was last rebuilt
from (treemap subset, flow graph, radar skill-frequency vector). -/
structure DashState where
  data : List Rec
  selectedState : Option String
  selectedTrack : Option String
  selectedCompanySize : Option String
  treemapData : List Rec
  sankeyData : Option SankeyData
  radarIndustryAvg : List ℚ
deriving DecidableEq

namespace Dashboard

/-- Embeds Dashboard.handleStateSelection: record the new state and
clear track and company-size selections, then, when the state subset
is non-empty, push the subset to the treemap, rebuild the flow graph
from it, and recompute the radar frequencies from it. -/
def handleStateSelection (s : DashState) (state : String) : DashState :=
  let s1 : DashState :=
    { s with selectedState := some state, selectedTrack := none, selectedCompanySize := none }
  let stateData := s.data.filter (fun d => decide (d.state = state))
  if 0 < stateData.length then
    { s1 with treemapData := TreemapViz.update stateData none
              sankeyData := some (SankeyViz.update stateData (some state))
              radarIndustryAvg := RadarChart.updateIndustryAverage s1.radarIndustryAvg stateData none }
  else s1

/-- Embeds Dashboard.handleTrackSelection: record the track, filter the
dataset to the selected state and track, and push the subset to the
treemap and the radar; the flow graph is not touched. -/
def handleTrackSelection (s : DashState) (track : String) : DashState :=
  let filteredData := s.data.filter (fun d =>
    (match s.selectedState with
     | some st => decide (d.state = st)
     | none => false)
    && decide (categorizeJob d.title = track))
  { s with selectedTrack := some track
           treemapData := TreemapViz.update filteredData (some track)
           radarIndustryAvg := RadarChart.updateIndustryAverage s.radarIndustryAvg filteredData (some track) }

/-- Poll period of waitForMapData in milliseconds. -/
def pollInterval : ℕ := 100

/-- Rejection timeout of waitForMapData in milliseconds. -/
def timeoutMs : ℕ := 10000

/-- Number of polls that can observe readiness before the rejection
timer fires. -/
def maxPolls : ℕ := timeoutMs / pollInterval

/-- Embeds Dashboard.waitForMapData: the readiness of the dataset is a
function of time in milliseconds; the promise polls it every 100 ms
from time zero, resolves at the first poll that observes readiness,
and rejects with the timeout error when no poll before the 10000 ms
deadline has observed it.  The promise settles exactly once: a
rejection is final and nothing re-attempts the wait. -/
def waitForMapData (ready : ℕ → Bool) : Except String ℕ :=
  match (List.range maxPolls).find? (fun k => ready (pollInterval * k)) with
  | some k => Except.ok (pollInterval * k)
  | none => Except.error "Map data loading timeout"

end Dashboard

/-- Decidable equality for the wait outcome, for concrete checks. -/
instance : DecidableEq (Except String ℕ) := fun a b =>
  match a, b with
  | Except.ok x, Except.ok y =>
    if h : x = y then Decidable.isTrue (by rw [h]) else Decidable.isFalse (by simp [h])
  | Except.error x, Except.error y =>
    if h : x = y then Decidable.isTrue (by rw [h]) else Decidable.isFalse (by simp [h])
  | Except.ok _, Except.error _ => Decidable.isFalse (by simp)
  | Except.error _, Except.ok _ => Decidable.isFalse (by simp)


/-- First record of the three-record scenario: a California data
scientist at 100k. -/
def caRow1 : Rec :=
  { state := "CA", title := "Data Scientist", avg := 100000,
    python_yn := 1, R_yn := 0, spark := 0, aws := 0, excel := 0, size := "Small (1-200)" }

/-- Second record of the scenario: a California data engineer at
140k. -/
def caRow2 : Rec :=
  { state := "CA", title := "Data Engineer", avg := 140000,
    python_yn := 0, R_yn := 0, spark := 1, aws := 1, excel := 0, size := "Large (1000+)" }

/-- Third record of the scenario: a New York data scientist at 90k. -/
def nyRow : Rec :=
  { state := "NY", title := "Data Scientist", avg := 90000,
    python_yn := 1, R_yn := 1, spark := 0, aws := 0, excel := 1, size := "Medium (201-1000)" }

/-- The three-record scenario dataset of the specification. -/
def exampleRows : List Rec := [caRow1, caRow2, nyRow]

/-- Raw csv row whose location names a place outside the 50 states but
with a two-capital-letter suffix, and a positive salary. -/
def zzRaw : RawRow :=
  { location := "Atlantis, ZZ", avgSalary := 100000, title := "Data Scientist", size := "",
    python_yn := 0, R_yn := 0, spark := 0, aws := 0, excel := 0 }

/-- Raw csv row with an ordinary California location and a positive
salary. -/
def caRaw : RawRow :=
  { location := "Sacramento, CA", avgSalary := 100000, title := "Data Scientist", size := "",
    python_yn := 1, R_yn := 0, spark := 0, aws := 0, excel := 0 }

/-- Record with the given salary, used to exercise the quartile
bucketing on a concrete subset. -/
def sampleRec (a : ℚ) : Rec :=
  { state := "CA", title := "Data Analyst", avg := a,
    python_yn := 0, R_yn := 0, spark := 0, aws := 0, excel := 0, size := "" }

/-- C1: the national median is the median of the per-region mean
salaries, one mean per region holding a valid record, and not the
median of the individual record salaries; on the scenario dataset of
records CA 100k, CA 140k, NY 90k the per-region stats are CA with 2
records at mean 120000 and NY with 1 record at 90000, the national
median is 105000, while the record-level median would be 100000. -/
theorem nationalMedian_is_median_of_region_means :
    (∀ rows : List Rec, nationalMedian rows = d3Median ((stateStats rows).map StateStat.avg))
    ∧ stateStats (validRows exampleRows) =
        [{ state := "CA", n := 2, avg := 120000 }, { state := "NY", n := 1, avg := 90000 }]
    ∧ nationalMedian (validRows exampleRows) = some 105000
    ∧ d3Median ((validRows exampleRows).map Rec.avg) = some 100000
    ∧ nationalMedian (validRows exampleRows) ≠ d3Median ((validRows exampleRows).map Rec.avg) := by
  refine ⟨fun rows => rfl, ?_, ?_, ?_, ?_⟩
  · with_unfolding_all rfl
  · with_unfolding_all rfl
  · with_unfolding_all rfl
  · have h1 : nationalMedian (validRows exampleRows) = some 105000 := by
      with_unfolding_all rfl
    have h2 : d3Median ((validRows exampleRows).map Rec.avg) = some 100000 := by
      with_unfolding_all rfl
    rw [h1, h2]
    decide

/-- C4: processing a state-selection event sets the selected region
and clears both the selected track and the selected company size, for
every prior filter state. -/
theorem handleStateSelection_resets_hierarchy (s : DashState) (r : String) :
    (Dashboard.handleStateSelection s r).selectedState = some r
    ∧ (Dashboard.handleStateSelection s r).selectedTrack = none
    ∧ (Dashboard.handleStateSelection s r).selectedCompanySize = none := by
  simp only [Dashboard.handleStateSelection]
  split <;> simp

/-- The Dashboard copy of categorizeJob agrees with the SankeyViz copy
on every title: the extra falsy guard of the Dashboard copy returns
Other exactly where the unguarded chain also lands in Other. -/
theorem categorizeJob_dashboard_eq_sankey (t : String) :
    Dashboard.categorizeJob t = SankeyViz.categorizeJob t := by
  by_cases h : t = ""
  · subst h; decide
  · simp only [Dashboard.categorizeJob, if_neg h]
    rfl

/-- C9: the four structurally identical copies of categorizeJob in
Dashboard, SankeyViz, TreemapViz, and RadarChart return the same track
label on every title, the empty title included. -/
theorem categorizeJob_copies_agree (title : String) :
    Dashboard.categorizeJob title = SankeyViz.categorizeJob title
    ∧ SankeyViz.categorizeJob title = TreemapViz.categorizeJob title
    ∧ TreemapViz.categorizeJob title = RadarChart.categorizeJob title :=
  ⟨categorizeJob_dashboard_eq_sankey title, rfl, rfl⟩

/-- C10: when the track-filtered subset handed to the industry-average
update is empty, the update leaves the stored per-skill frequency
vector exactly as it was. -/
theorem updateIndustryAverage_empty_subset_noop (cur : List ℚ) (data : List Rec) (track : String)
    (hempty : data.filter (fun d => decide (RadarChart.categorizeJob d.title = track)) = []) :
    RadarChart.updateIndustryAverage cur data (some track) = cur := by
  simp only [RadarChart.updateIndustryAverage]
  rw [hempty]
  simp

/-- Witness for C10: a dataset holding one data-scientist record has an
empty data-engineer subset, and the stored vector survives the update
unchanged. -/
theorem updateIndustryAverage_empty_subset_noop_witness :
    RadarChart.updateIndustryAverage [1, 0, 0, 0, 0] [caRow1] (some "Data Engineer") = [1, 0, 0, 0, 0] :=
  updateIndustryAverage_empty_subset_noop [1, 0, 0, 0, 0] [caRow1] "Data Engineer" (by decide)

/-- Counterexample to C2: the row located in a fictional place with
suffix ZZ survives the validity filter and enters aggregation, yet ZZ
is not one of the 50 known state codes. -/
theorem validRows_admits_unknown_code :
    validRows [transformRow zzRaw] = [transformRow zzRaw]
    ∧ (transformRow zzRaw).state = "ZZ"
    ∧ (transformRow zzRaw).state ∉ knownStateCodes
    ∧ 0 < (transformRow zzRaw).avg := by
  decide

/-- A successful state extraction yields two capital letters. -/
theorem extractStateRev_upper (l : List Char) (c1 c2 : Char)
    (h : extractStateRev l = some (c1, c2)) : c1.isUpper = true ∧ c2.isUpper = true := by
  unfold extractStateRev at h
  split at h
  case _ a b rest =>
    split at h
    case isTrue hup =>
      split at h
      case _ c rest2 _ =>
        split at h
        · simp only [Option.some.injEq, Prod.mk.injEq] at h
          obtain ⟨h1, h2⟩ := h
          subst h1; subst h2
          exact Bool.and_eq_true_iff.mp hup
        · exact absurd h (by simp)
      case _ => exact absurd h (by simp)
    case isFalse _ => exact absurd h (by simp)
  case _ => exact absurd h (by simp)

/-- The extracted state string is either empty or a two-capital-letter
code. -/
theorem parseLocationState_shape (loc : String) :
    parseLocationState loc = ""
    ∨ ((parseLocationState loc).length = 2
       ∧ ∀ c ∈ (parseLocationState loc).data, c.isUpper = true) := by
  unfold parseLocationState
  cases h : extractStateRev loc.data.reverse with
  | none => exact Or.inl rfl
  | some p =>
    obtain ⟨c1, c2⟩ := p
    obtain ⟨h1, h2⟩ := extractStateRev_upper _ _ _ h
    refine Or.inr ⟨rfl, ?_⟩
    intro c hc
    simp only [String.data, List.mem_cons, List.not_mem_nil, or_false] at hc
    rcases hc with rfl | rfl
    · exact h1
    · exact h2

/-- C2 amended: every record surviving the validity filter carries a
positive salary and a two-capital-letter region code extracted from
its location, though not necessarily one of the 50 known codes, and
any transformed record with a non-positive salary or no extractable
code is excluded from the filtered list. -/
theorem validRows_positive_and_code_shape (raws : List RawRow) :
    (∀ r ∈ validRows (raws.map transformRow),
       0 < r.avg ∧ r.state.length = 2 ∧ ∀ c ∈ r.state.data, c.isUpper = true)
    ∧ ∀ r ∈ raws.map transformRow,
        ¬ (0 < r.avg ∧ r.state ≠ "") → r ∉ validRows (raws.map transformRow) := by
  constructor
  · intro r hr
    rw [validRows, List.mem_filter] at hr
    obtain ⟨hmem, hp⟩ := hr
    simp only [Bool.and_eq_true, decide_eq_true_eq] at hp
    obtain ⟨hpos, hne⟩ := hp
    refine ⟨hpos, ?_⟩
    rw [List.mem_map] at hmem
    obtain ⟨d, _, rfl⟩ := hmem
    rcases parseLocationState_shape d.location with h | h
    · exact absurd h hne
    · exact h
  · intro r _ hnp hmem2
    rw [validRows, List.mem_filter] at hmem2
    obtain ⟨_, hp⟩ := hmem2
    simp only [Bool.and_eq_true, decide_eq_true_eq] at hp
    exact hnp hp

/-- Witness for the amended C2: the California raw row passes the
filter and its extracted code has the stated shape. -/
theorem validRows_positive_and_code_shape_witness :
    0 < (transformRow caRaw).avg ∧ (transformRow caRaw).state.length = 2
    ∧ ∀ c ∈ (transformRow caRaw).state.data, c.isUpper = true :=
  (validRows_positive_and_code_shape [caRaw]).1 (transformRow caRaw) (by decide)

/-- Counterexample to C5: the title Data Scientist Engineer contains
both data and engineer, yet the first matching predicate of the
ordered chain classifies it as Data Scientist, not Data Engineer. -/
theorem categorizeJob_data_engineer_counterexample :
    Dashboard.categorizeJob "Data Scientist Engineer" = "Data Scientist"
    ∧ jsIncludes (toLowerJs "Data Scientist Engineer") "data" = true
    ∧ jsIncludes (toLowerJs "Data Scientist Engineer") "engineer" = true
    ∧ Dashboard.categorizeJob "Data Scientist Engineer" ≠ "Data Engineer" := by
  decide

/-- C5 amended: the classifier lower-cases the title and returns the
first match of the ordered substring-predicate chain; consequently a
title containing the contiguous phrase data engineer and not the
phrase data scientist resolves to Data Engineer. -/
theorem categorizeJob_phrase_data_engineer (title : String)
    (h1 : jsIncludes (toLowerJs title) "data engineer" = true)
    (h2 : jsIncludes (toLowerJs title) "data scientist" = false) :
    Dashboard.categorizeJob title = "Data Engineer" := by
  have ht : title ≠ "" := by
    intro h
    subst h
    exact absurd h1 (by decide)
  simp [Dashboard.categorizeJob, ht, h1, h2]

/-- Witness for the amended C5 at a concrete data-engineer title. -/
theorem categorizeJob_phrase_data_engineer_witness :
    Dashboard.categorizeJob "Senior Data Engineer" = "Data Engineer" :=
  categorizeJob_phrase_data_engineer "Senior Data Engineer" (by decide) (by decide)

/-- Counterexample to C6: after a non-empty update sets the Python
frequency to one, an update with the empty subset keeps the published
vector at its previous values rather than publishing zero for every
skill. -/
theorem skillFrequency_empty_subset_not_zero :
    RadarChart.updateIndustryAverage
        (RadarChart.updateIndustryAverage [0, 0, 0, 0, 0] [caRow1] none) [] none = [1, 0, 0, 0, 0]
    ∧ RadarChart.updateIndustryAverage
        (RadarChart.updateIndustryAverage [0, 0, 0, 0, 0] [caRow1] none) [] none ≠ [0, 0, 0, 0, 0] := by
  have h : RadarChart.updateIndustryAverage [0, 0, 0, 0, 0] [caRow1] none = [1, 0, 0, 0, 0] := by
    with_unfolding_all rfl
  rw [h]
  exact ⟨rfl, by decide⟩

/-- C6 amended: on a non-empty subset the update publishes, for each
of the five skills, the fraction of subset records with that flag set,
a value between zero and one; on the empty subset the update leaves
the previously published vector unchanged (so it reads zero only when
nothing was ever published). -/
theorem skillFrequency_fraction_spec (cur : List ℚ) (data : List Rec) :
    (data ≠ [] →
      RadarChart.updateIndustryAverage cur data none =
        RadarChart.skillFields.map (fun field =>
          ((data.filter (fun d => decide (field d = 1))).length : ℚ) / (data.length : ℚ))
      ∧ ∀ q ∈ RadarChart.updateIndustryAverage cur data none, 0 ≤ q ∧ q ≤ 1)
    ∧ RadarChart.updateIndustryAverage cur [] none = cur := by
  constructor
  · intro hne
    have hlen : data.length ≠ 0 := fun h => hne (List.length_eq_zero.mp h)
    have heq : RadarChart.updateIndustryAverage cur data none =
        RadarChart.skillFields.map (fun field =>
          ((data.filter (fun d => decide (field d = 1))).length : ℚ) / (data.length : ℚ)) := by
      simp only [RadarChart.updateIndustryAverage]
      rw [if_neg hlen]
    refine ⟨heq, ?_⟩
    rw [heq]
    intro q hq
    rw [List.mem_map] at hq
    obtain ⟨field, _, rfl⟩ := hq
    constructor
    · apply div_nonneg <;> exact Nat.cast_nonneg _
    · rw [div_le_one (by exact_mod_cast Nat.pos_of_ne_zero hlen)]
      exact_mod_cast List.length_filter_le _ _
  · rfl

/-- With ordered thresholds, bucket membership at a valid bucket index
holds exactly when the index is the one selected by the threshold
chain on the salary. -/
theorem inQuartileIdx_true_iff (q1 q2 q3 s : ℚ) (h12 : q1 ≤ q2) (h23 : q2 ≤ q3)
    (i : ℕ) (hi : i < 4) :
    (SankeyViz.inQuartileIdx (some q1) (some q2) (some q3) i s = true) ↔
      i = (if s ≤ q1 then 0 else if s ≤ q2 then 1 else if s ≤ q3 then 2 else 3) := by
  interval_cases i <;> split_ifs with h1 h2 h3 <;>
    simp [SankeyViz.inQuartileIdx, leOpt, gtOpt] <;>
    first
      | rfl
      | linarith
      | (intro h; linarith)
      | (intro h; constructor <;> linarith)
      | (constructor <;> linarith)

/-- With ordered thresholds, every salary satisfies the membership
predicate of exactly one of the four quartile buckets. -/
theorem quartile_exactly_one (q1 q2 q3 s : ℚ) (h12 : q1 ≤ q2) (h23 : q2 ≤ q3) :
    ∃! i : ℕ, i < 4 ∧ SankeyViz.inQuartileIdx (some q1) (some q2) (some q3) i s = true := by
  refine ⟨if s ≤ q1 then 0 else if s ≤ q2 then 1 else if s ≤ q3 then 2 else 3,
    ⟨by split_ifs <;> omega, ?_⟩, ?_⟩
  · rw [inQuartileIdx_true_iff q1 q2 q3 s h12 h23 _ (by split_ifs <;> omega)]
  · rintro j ⟨hj4, hj⟩
    exact (inQuartileIdx_true_iff q1 q2 q3 s h12 h23 j hj4).mp hj

/-- C3: with the quartile boundaries computed from the subset and
ordered q1 at most q2 at most q3, the bucket assignment of
buildSankeyData sends every record of the subset to exactly one of the
four buckets, and a salary exactly at q1 lands in the first bucket and
not the second. -/
theorem quartile_buckets_partition (data : List Rec) (q1 q2 q3 : ℚ)
    (hq1 : quantileSorted (sortQ ((data.map Rec.avg).filter (fun s => decide (0 < s)))) (1 / 4) = some q1)
    (hq2 : quantileSorted (sortQ ((data.map Rec.avg).filter (fun s => decide (0 < s)))) (1 / 2) = some q2)
    (hq3 : quantileSorted (sortQ ((data.map Rec.avg).filter (fun s => decide (0 < s)))) (3 / 4) = some q3)
    (h12 : q1 ≤ q2) (h23 : q2 ≤ q3) :
    (∀ r ∈ data, ∃! i : ℕ, i < 4 ∧
        SankeyViz.inQuartileIdx (some q1) (some q2) (some q3) i r.avg = true)
    ∧ SankeyViz.inQuartileIdx (some q1) (some q2) (some q3) 0 q1 = true
    ∧ SankeyViz.inQuartileIdx (some q1) (some q2) (some q3) 1 q1 = false := by
  refine ⟨fun r _ => quartile_exactly_one q1 q2 q3 r.avg h12 h23, ?_, ?_⟩
  · simp [SankeyViz.inQuartileIdx, leOpt]
  · simp [SankeyViz.inQuartileIdx, leOpt, gtOpt]

/-- Witness for C3 on the four-record subset with salaries one to
four, whose computed quartile boundaries are 7/4, 5/2, and 13/4. -/
theorem quartile_buckets_partition_witness :
    (∀ r ∈ [sampleRec 1, sampleRec 2, sampleRec 3, sampleRec 4], ∃! i : ℕ, i < 4 ∧
        SankeyViz.inQuartileIdx (some (7 / 4)) (some (5 / 2)) (some (13 / 4)) i r.avg = true)
    ∧ SankeyViz.inQuartileIdx (some (7 / 4)) (some (5 / 2)) (some (13 / 4)) 0 (7 / 4) = true
    ∧ SankeyViz.inQuartileIdx (some (7 / 4)) (some (5 / 2)) (some (13 / 4)) 1 (7 / 4) = false :=
  quartile_buckets_partition [sampleRec 1, sampleRec 2, sampleRec 3, sampleRec 4]
    (7 / 4) (5 / 2) (13 / 4)
    (by with_unfolding_all rfl) (by with_unfolding_all rfl) (by with_unfolding_all rfl)
    (by with_unfolding_all decide) (by with_unfolding_all decide)

/-- Witness for the amended C6: one-record subset publishes the flag
fractions, and the empty subset leaves a stored vector untouched. -/
theorem skillFrequency_fraction_spec_witness :
    (RadarChart.updateIndustryAverage [3, 3, 3, 3, 3] [caRow1] none =
      RadarChart.skillFields.map (fun field =>
        ((([caRow1] : List Rec).filter (fun d => decide (field d = 1))).length : ℚ)
          / (([caRow1] : List Rec).length : ℚ))
      ∧ ∀ q ∈ RadarChart.updateIndustryAverage [3, 3, 3, 3, 3] [caRow1] none, 0 ≤ q ∧ q ≤ 1)
    ∧ RadarChart.updateIndustryAverage [3, 3, 3, 3, 3] [] none = [3, 3, 3, 3, 3] :=
  ⟨(skillFrequency_fraction_spec [3, 3, 3, 3, 3] [caRow1]).1 (by decide),
   (skillFrequency_fraction_spec [3, 3, 3, 3, 3] []).2⟩

/-- Filtering twice with the same predicate filters once. -/
theorem filter_idem {α : Type} (l : List α) (p : α → Bool) :
    (l.filter p).filter p = l.filter p :=
  List.filter_eq_self.mpr (fun a ha => (List.mem_filter.mp ha).2)

/-- C7: with a region selected, a track-selection event leaves the
flow graph exactly as the one built from the region-only subset, while
the size-bucket view and the skill-frequency view are recomputed from
the region-and-track subset. -/
theorem trackSelection_preserves_flow_graph (s0 : DashState) (r t : String)
    (hne : s0.data.filter (fun d => decide (d.state = r)) ≠ []) :
    (Dashboard.handleTrackSelection (Dashboard.handleStateSelection s0 r) t).sankeyData
        = (Dashboard.handleStateSelection s0 r).sankeyData
    ∧ (Dashboard.handleStateSelection s0 r).sankeyData
        = some (SankeyViz.buildSankeyData (s0.data.filter (fun d => decide (d.state = r))))
    ∧ (Dashboard.handleTrackSelection (Dashboard.handleStateSelection s0 r) t).treemapData
        = s0.data.filter (fun d =>
            decide (d.state = r) && decide (Dashboard.categorizeJob d.title = t))
    ∧ (Dashboard.handleTrackSelection (Dashboard.handleStateSelection s0 r) t).radarIndustryAvg
        = RadarChart.updateIndustryAverage
            (Dashboard.handleStateSelection s0 r).radarIndustryAvg
            (s0.data.filter (fun d =>
              decide (d.state = r) && decide (Dashboard.categorizeJob d.title = t)))
            (some t) := by
  have hpos : 0 < (s0.data.filter (fun d => decide (d.state = r))).length :=
    List.length_pos.mpr hne
  simp only [Dashboard.handleStateSelection, Dashboard.handleTrackSelection, if_pos hpos]
  refine ⟨trivial, ?_, ?_, trivial⟩
  · simp only [SankeyViz.update, filter_idem]
  · simp only [TreemapViz.update]
    apply List.filter_eq_self.mpr
    intro d hd
    have h2 := (List.mem_filter.mp hd).2
    simp only [Bool.and_eq_true, decide_eq_true_eq] at h2
    have hcat : TreemapViz.categorizeJob d.title = t :=
      (categorizeJob_dashboard_eq_sankey d.title).symm.trans h2.2
    simp [hcat]

/-- Witness for C7 on a two-record dataset with a California subset. -/
theorem trackSelection_preserves_flow_graph_witness :
    (Dashboard.handleTrackSelection
        (Dashboard.handleStateSelection
          { data := [caRow1, nyRow], selectedState := none, selectedTrack := none,
            selectedCompanySize := none, treemapData := [], sankeyData := none,
            radarIndustryAvg := [0, 0, 0, 0, 0] } "CA") "Data Scientist").sankeyData
      = (Dashboard.handleStateSelection
          { data := [caRow1, nyRow], selectedState := none, selectedTrack := none,
            selectedCompanySize := none, treemapData := [], sankeyData := none,
            radarIndustryAvg := [0, 0, 0, 0, 0] } "CA").sankeyData
    ∧ (Dashboard.handleStateSelection
          { data := [caRow1, nyRow], selectedState := none, selectedTrack := none,
            selectedCompanySize := none, treemapData := [], sankeyData := none,
            radarIndustryAvg := [0, 0, 0, 0, 0] } "CA").sankeyData
      = some (SankeyViz.buildSankeyData (([caRow1, nyRow] : List Rec).filter
          (fun d => decide (d.state = "CA"))))
    ∧ (Dashboard.handleTrackSelection
        (Dashboard.handleStateSelection
          { data := [caRow1, nyRow], selectedState := none, selectedTrack := none,
            selectedCompanySize := none, treemapData := [], sankeyData := none,
            radarIndustryAvg := [0, 0, 0, 0, 0] } "CA") "Data Scientist").treemapData
      = ([caRow1, nyRow] : List Rec).filter (fun d =>
          decide (d.state = "CA") && decide (Dashboard.categorizeJob d.title = "Data Scientist"))
    ∧ (Dashboard.handleTrackSelection
        (Dashboard.handleStateSelection
          { data := [caRow1, nyRow], selectedState := none, selectedTrack := none,
            selectedCompanySize := none, treemapData := [], sankeyData := none,
            radarIndustryAvg := [0, 0, 0, 0, 0] } "CA") "Data Scientist").radarIndustryAvg
      = RadarChart.updateIndustryAverage
          (Dashboard.handleStateSelection
            { data := [caRow1, nyRow], selectedState := none, selectedTrack := none,
              selectedCompanySize := none, treemapData := [], sankeyData := none,
              radarIndustryAvg := [0, 0, 0, 0, 0] } "CA").radarIndustryAvg
          (([caRow1, nyRow] : List Rec).filter (fun d =>
            decide (d.state = "CA") && decide (Dashboard.categorizeJob d.title = "Data Scientist")))
          (some "Data Scientist") :=
  trackSelection_preserves_flow_graph
    { data := [caRow1, nyRow], selectedState := none, selectedTrack := none,
      selectedCompanySize := none, treemapData := [], sankeyData := none,
      radarIndustryAvg := [0, 0, 0, 0, 0] } "CA" "Data Scientist" (by decide)

/-- C8: the initialization wait fails with the fatal timeout error
when the dataset is not ready at any time before the 10 second
deadline, never retrying past it, and resolves successfully when the
dataset becomes ready at least one poll period before the deadline;
readiness is monotone in time. -/
theorem waitForMapData_timeout_behavior (ready : ℕ → Bool)
    (hmono : ∀ a b, a ≤ b → ready a = true → ready b = true) :
    ((∀ t, t < Dashboard.timeoutMs → ready t = false) →
        Dashboard.waitForMapData ready = Except.error "Map data loading timeout")
    ∧ (∀ t, t + Dashboard.pollInterval ≤ Dashboard.timeoutMs → ready t = true →
        ∃ k, Dashboard.waitForMapData ready = Except.ok k) := by
  constructor
  · intro hfail
    unfold Dashboard.waitForMapData
    have hnone : (List.range Dashboard.maxPolls).find?
        (fun k => ready (Dashboard.pollInterval * k)) = none := by
      rw [List.find?_eq_none]
      intro k hk
      rw [List.mem_range] at hk
      rw [hfail (Dashboard.pollInterval * k) (by
        simp only [Dashboard.pollInterval, Dashboard.timeoutMs, Dashboard.maxPolls] at hk ⊢
        omega)]
      simp
    rw [hnone]
  · intro t ht hready
    have hk0lt : (t + 99) / 100 < Dashboard.maxPolls := by
      simp only [Dashboard.pollInterval, Dashboard.timeoutMs, Dashboard.maxPolls] at ht ⊢
      omega
    have hcover : t ≤ Dashboard.pollInterval * ((t + 99) / 100) := by
      simp only [Dashboard.pollInterval]
      omega
    have hrk : ready (Dashboard.pollInterval * ((t + 99) / 100)) = true :=
      hmono _ _ hcover hready
    unfold Dashboard.waitForMapData
    cases hfind : (List.range Dashboard.maxPolls).find?
        (fun k => ready (Dashboard.pollInterval * k)) with
    | some k => exact ⟨Dashboard.pollInterval * k, rfl⟩
    | none =>
      rw [List.find?_eq_none] at hfind
      exact absurd hrk (by simpa using hfind _ (List.mem_range.mpr hk0lt))

/-- Witness for C8: a dataset becoming ready at five seconds resolves
the wait successfully. -/
theorem waitForMapData_timeout_behavior_witness :
    ∃ k, Dashboard.waitForMapData (fun t => decide (5000 ≤ t)) = Except.ok k :=
  (waitForMapData_timeout_behavior (fun t => decide (5000 ≤ t))
    (fun a b hab h => by
      simp only [decide_eq_true_eq] at h ⊢
      omega)).2 5000 (by decide) (by decide)

end SalaryDash
